import Mathlib

/-!
Shallow embedding of `src/src-tauri/src/hardware_monitor.rs` (Tari Universe
hardware monitor).  The module samples CPU/GPU telemetry through three
platform backends (Windows, Linux, macOS), folds a running maximum
temperature across polls, and reads an external `gpu_status.json` file.

Modelling conventions:
* `f32` values are modelled by `F`: either a finite rational or `nan`
  (the only non-finite value reachable in this code: the sole division is
  an average whose denominator is the element count, which is zero exactly
  when the summed numerator is the empty sum `0`, and IEEE `0.0 / 0.0` is
  NaN).  `F.max` follows Rust's `f32::max` (NaN-ignoring); `F.ge` follows
  the IEEE `>=` comparison (false whenever an operand is NaN).
* A Rust panic (`unwrap` failure) is modelled by `none` in an
  `Option`-returning embedding of the function.
* The OS sensor facilities (`sysinfo`), the NVML library and the file
  system are external collaborators; they are modelled as explicit
  environment values handed to each reader.
-/

/-- Model of `f32` restricted to the values reachable in this module:
finite rationals plus NaN. -/
inductive F where
  | nan : F
  | fin : ℚ → F
deriving DecidableEq, Repr

namespace F

/-- IEEE addition on the reachable values: any NaN operand poisons. -/
def add : F → F → F
  | fin a, fin b => fin (a + b)
  | _, _ => nan

/-- IEEE division on the reachable values.  In this module the only
division is `sum / count`; the denominator is zero exactly when the
numerator is the empty sum `0`, and `0.0 / 0.0` is NaN. -/
def div : F → F → F
  | fin a, fin b => if b = 0 then nan else fin (a / b)
  | _, _ => nan

/-- Rust's `f32::max`: ignores NaN operands. -/
def max : F → F → F
  | nan, y => y
  | fin a, nan => fin a
  | fin a, fin b => fin (Max.max a b)

/-- IEEE `>=`: false whenever an operand is NaN. -/
def ge : F → F → Bool
  | fin a, fin b => decide (b ≤ a)
  | _, _ => false

/-- Finiteness test: only NaN is non-finite here. -/
def isFinite : F → Bool
  | nan => false
  | fin _ => true

end F

/-- One temperature-bearing hardware component as enumerated by
`sysinfo::Components::new_with_refreshed_list()`. -/
structure Component where
  label : String
  temperature : F
deriving DecidableEq, Repr

/-- Rust `str::contains` (substring containment) on our strings. -/
def strContains (s pat : String) : Bool :=
  decide (List.IsInfix pat.toList s.toList)

/-- One normalized reading (`HardwareParameters` in the source). -/
structure HardwareParameters where
  label : String
  usage_percentage : F
  current_temperature : F
  max_temperature : F
deriving DecidableEq, Repr

/-- One GPU availability record (`GpuStatus` in the source). -/
structure GpuStatus where
  device_name : String
  is_available : Bool
deriving DecidableEq, Repr

/-- The per-poll snapshot (`HardwareStatus` in the source). -/
structure HardwareStatus where
  cpu : Option HardwareParameters
  gpu : List HardwareParameters
deriving DecidableEq, Repr

/-- The sensor-side environment one poll observes: the refreshed component
list, the global CPU usage (`System::global_cpu_usage`) and the brand
strings of the enumerated logical CPUs (`System::cpus()`), in order. -/
structure SensorEnv where
  components : List Component
  globalCpuUsage : F
  cpuBrands : List String

/-- Average of the temperatures of a component list, as in the source:
`components.iter().map(temperature).sum::<f32>() / components.len() as f32`. -/
def avgTemp (cs : List Component) : F :=
  F.div ((cs.map (fun c => c.temperature)).foldl F.add (F.fin 0)) (F.fin cs.length)

/-- Windows backend: the CPU-relevant component filter
(`c.label().contains("Cpu")`). -/
def windowsCpuComponents (env : SensorEnv) : List Component :=
  env.components.filter (fun c => strContains c.label "Cpu")

/-- Windows backend: the averaged CPU temperature of this poll. -/
def windowsCpuAvg (env : SensorEnv) : F :=
  avgTemp (windowsCpuComponents env)

/-- Embedding of `WindowsHardwareMonitor::read_cpu_parameters`
(hardware_monitor.rs lines 171-208).  `none` models the panic of
`system.cpus().first().unwrap()` when no logical CPU is enumerated. -/
def WindowsHardwareMonitor.read_cpu_parameters (env : SensorEnv)
    (current_parameters : Option HardwareParameters) : Option HardwareParameters :=
  let avarage_temperature := windowsCpuAvg env
  let usage := env.globalCpuUsage
  match env.cpuBrands.head? with
  | none => none
  | some label =>
    match current_parameters with
    | some current_parameters =>
      some { label := label, usage_percentage := usage,
             current_temperature := avarage_temperature,
             max_temperature := F.max current_parameters.max_temperature avarage_temperature }
    | none =>
      some { label := label, usage_percentage := usage,
             current_temperature := avarage_temperature,
             max_temperature := avarage_temperature }

/-- Linux backend: CPU-relevant components, with the AMD-vs-Intel
fallback (`"k10temp Tctl"` matches win over `"Package"` matches when
non-empty). -/
def linuxCpuComponents (env : SensorEnv) : List Component :=
  let intel_cpu_component := env.components.filter (fun c => strContains c.label "Package")
  let amd_cpu_component := env.components.filter (fun c => strContains c.label "k10temp Tctl")
  if amd_cpu_component.isEmpty then intel_cpu_component else amd_cpu_component

/-- Linux backend: the averaged CPU temperature of this poll. -/
def linuxCpuAvg (env : SensorEnv) : F :=
  avgTemp (linuxCpuComponents env)

/-- Embedding of `LinuxHardwareMonitor::read_cpu_parameters`
(hardware_monitor.rs lines 299-358). -/
def LinuxHardwareMonitor.read_cpu_parameters (env : SensorEnv)
    (current_parameters : Option HardwareParameters) : Option HardwareParameters :=
  let avarage_temperature := linuxCpuAvg env
  let usage := env.globalCpuUsage
  match env.cpuBrands.head? with
  | none => none
  | some label =>
    match current_parameters with
    | some current_parameters =>
      some { label := label, usage_percentage := usage,
             current_temperature := avarage_temperature,
             max_temperature := F.max current_parameters.max_temperature avarage_temperature }
    | none =>
      some { label := label, usage_percentage := usage,
             current_temperature := avarage_temperature,
             max_temperature := avarage_temperature }

/-- macOS backend: CPU-relevant components, with the Apple-silicon
fallback (`"MTR"` matches win over `"CPU"` matches when non-empty). -/
def macCpuComponents (env : SensorEnv) : List Component :=
  let intel_cpu_components := env.components.filter (fun c => strContains c.label "CPU")
  let silicon_cpu_components := env.components.filter (fun c => strContains c.label "MTR")
  if silicon_cpu_components.isEmpty then intel_cpu_components else silicon_cpu_components

/-- macOS backend: the averaged CPU temperature of this poll. -/
def macCpuAvg (env : SensorEnv) : F :=
  avgTemp (macCpuComponents env)

/-- Embedding of `MacOSHardwareMonitor::read_cpu_parameters`
(hardware_monitor.rs lines 447-499); the label gets a `" CPU"` suffix. -/
def MacOSHardwareMonitor.read_cpu_parameters (env : SensorEnv)
    (current_parameters : Option HardwareParameters) : Option HardwareParameters :=
  let avarage_temperature := macCpuAvg env
  let usage := env.globalCpuUsage
  match env.cpuBrands.head? with
  | none => none
  | some brand =>
    let label := brand ++ " CPU"
    match current_parameters with
    | some current_parameters =>
      some { label := label, usage_percentage := usage,
             current_temperature := avarage_temperature,
             max_temperature := F.max current_parameters.max_temperature avarage_temperature }
    | none =>
      some { label := label, usage_percentage := usage,
             current_temperature := avarage_temperature,
             max_temperature := avarage_temperature }

/-- One NVML device as seen through `nvml_wrapper`: each query returns a
`Result`; `none` models a query error.  Temperatures and utilization are
`u32` values. -/
structure NvmlDevice where
  temperature : Option Nat
  utilization : Option Nat
  name : Option String

/-- The NVML library state: `device_count()` (a `Result`, `none` = error)
and `device_by_index` (`none` = lookup error). -/
structure NvmlEnv where
  device_count : Option Nat
  device_by_index : Nat → Option NvmlDevice

/-- One iteration of the device loop in
`WindowsHardwareMonitor::read_gpu_parameters` /
`LinuxHardwareMonitor::read_gpu_parameters` (hardware_monitor.rs lines
225-252 resp. 375-402).  Outer `none` = a metric query `unwrap` panicked;
`some none` = `device_by_index` failed, the index is skipped (`continue`);
`some (some p)` = the entry pushed for this device. -/
def nvmlDeviceEntry (env : NvmlEnv) (current_parameters : List HardwareParameters)
    (i : Nat) : Option (Option HardwareParameters) :=
  match env.device_by_index i with
  | none => some none
  | some current_gpu =>
    match current_gpu.temperature, current_gpu.utilization, current_gpu.name with
    | some t, some u, some label =>
      let current_temperature := F.fin (t : ℚ)
      let max_temperature :=
        match current_parameters[i]? with
        | some cp => F.max cp.max_temperature current_temperature
        | none => current_temperature
      some (some { label := label, usage_percentage := F.fin (u : ℚ),
                   current_temperature := current_temperature,
                   max_temperature := max_temperature })
    | _, _, _ => none

/-- Accumulating step of the device loop: a panicked state stays
panicked, a skipped device adds nothing, a queried device is pushed. -/
def nvmlGpuStepFold (env : NvmlEnv) (current_parameters : List HardwareParameters)
    (acc : Option (List HardwareParameters)) (i : Nat) : Option (List HardwareParameters) :=
  match acc with
  | none => none
  | some l =>
    match nvmlDeviceEntry env current_parameters i with
    | none => none
    | some none => some l
    | some (some hp) => some (l ++ [hp])

/-- Embedding of the NVML-backed `read_gpu_parameters` shared verbatim by
the Windows and Linux backends (hardware_monitor.rs lines 209-254 and
359-404).  `nvml = none` models a failed NVML initialization (returns
`vec![]`); a failed `device_count` is `unwrap_or_else`-defaulted to 0. -/
def NvmlGpu.read_gpu_parameters (nvml : Option NvmlEnv)
    (current_parameters : List HardwareParameters) : Option (List HardwareParameters) :=
  match nvml with
  | none => some []
  | some env =>
    let num_of_devices := env.device_count.getD 0
    (List.range num_of_devices).foldl (nvmlGpuStepFold env current_parameters) (some [])

/-- Windows backend GPU reader (identical to the Linux one in the
source). -/
def WindowsHardwareMonitor.read_gpu_parameters :
    Option NvmlEnv → List HardwareParameters → Option (List HardwareParameters) :=
  NvmlGpu.read_gpu_parameters

/-- Linux backend GPU reader (identical to the Windows one in the
source). -/
def LinuxHardwareMonitor.read_gpu_parameters :
    Option NvmlEnv → List HardwareParameters → Option (List HardwareParameters) :=
  NvmlGpu.read_gpu_parameters

/-- macOS backend: the GPU-relevant components
(`c.label().contains("GPU")`). -/
def macGpuComponents (env : SensorEnv) : List Component :=
  env.components.filter (fun c => strContains c.label "GPU")

/-- macOS backend: the averaged GPU-component temperature of this poll. -/
def macGpuAvg (env : SensorEnv) : F :=
  avgTemp (macGpuComponents env)

/-- One iteration of the device loop in
`MacOSHardwareMonitor::read_gpu_parameters` (hardware_monitor.rs lines
517-542): device `i` is skipped (`continue`) when `system.cpus().get(i)`
is absent; otherwise usage is the global CPU usage placeholder, and when
a positionally-corresponding previous entry exists its
`current_temperature` is carried over unchanged while the fresh average
is folded only into `max_temperature`. -/
def macGpuEntry (env : SensorEnv) (current_parameters : List HardwareParameters)
    (i : Nat) : Option HardwareParameters :=
  match env.cpuBrands[i]? with
  | none => none
  | some brand =>
    let usage_percentage := env.globalCpuUsage
    let label := brand ++ " GPU"
    match current_parameters[i]? with
    | some cp =>
      some { label := label, usage_percentage := usage_percentage,
             current_temperature := cp.current_temperature,
             max_temperature := F.max cp.max_temperature (macGpuAvg env) }
    | none =>
      some { label := label, usage_percentage := usage_percentage,
             current_temperature := macGpuAvg env,
             max_temperature := macGpuAvg env }

/-- Embedding of `MacOSHardwareMonitor::read_gpu_parameters`
(hardware_monitor.rs lines 500-544): the push loop over device indices
`0..num_of_devices`, skipped indices contributing nothing, is the
`filterMap` of the per-index entry.  This reader never panics. -/
def MacOSHardwareMonitor.read_gpu_parameters (env : SensorEnv)
    (current_parameters : List HardwareParameters) : List HardwareParameters :=
  (List.range (macGpuComponents env).length).filterMap (macGpuEntry env current_parameters)

/-- JSON values, the model of `serde_json::Value` as far as this module
needs it (number payloads are irrelevant to `GpuStatus` and are not
retained). -/
inductive Json where
  | null : Json
  | bool : Bool → Json
  | num : Json
  | str : String → Json
  | arr : List Json → Json
  | obj : List (String × Json) → Json

/-- JSON whitespace. -/
def jsonWs (c : Char) : Bool :=
  c = ' ' || c = '\n' || c = '\t' || c = '\r'

/-- Drop leading JSON whitespace. -/
def skipWs : List Char → List Char
  | [] => []
  | c :: cs => if jsonWs c then skipWs cs else c :: cs

/-- Value of a hexadecimal digit. -/
def hexDigit (c : Char) : Option Nat :=
  if '0' ≤ c ∧ c ≤ '9' then some (c.toNat - '0'.toNat)
  else if 'a' ≤ c ∧ c ≤ 'f' then some (c.toNat - 'a'.toNat + 10)
  else if 'A' ≤ c ∧ c ≤ 'F' then some (c.toNat - 'A'.toNat + 10)
  else none

/-- Unescape of a single-character JSON string escape. -/
def unescapeChar (c : Char) : Option Char :=
  match c with
  | '"' => some '"'
  | '\\' => some '\\'
  | '/' => some '/'
  | 'n' => some '\n'
  | 't' => some '\t'
  | 'r' => some '\r'
  | 'b' => some (Char.ofNat 8)
  | 'f' => some (Char.ofNat 12)
  | _ => none

/-- Parse the body of a JSON string after the opening quote; returns the
decoded characters and the input after the closing quote. -/
def parseStrBody (fuel : Nat) (l : List Char) : Option (List Char × List Char) :=
  match fuel, l with
  | 0, _ => none
  | _, [] => none
  | fuel + 1, c :: rest =>
    if c = '"' then some ([], rest)
    else if c = '\\' then
      match rest with
      | 'u' :: h1 :: h2 :: h3 :: h4 :: rest2 =>
        match hexDigit h1, hexDigit h2, hexDigit h3, hexDigit h4 with
        | some a, some b, some c2, some d =>
          match parseStrBody fuel rest2 with
          | some (cs, r) => some (Char.ofNat (((a * 16 + b) * 16 + c2) * 16 + d) :: cs, r)
          | none => none
        | _, _, _, _ => none
      | e :: rest2 =>
        match unescapeChar e with
        | some c2 =>
          match parseStrBody fuel rest2 with
          | some (cs, r) => some (c2 :: cs, r)
          | none => none
        | none => none
      | [] => none
    else
      match parseStrBody fuel rest with
      | some (cs, r) => some (c :: cs, r)
      | none => none

/-- Span of decimal digits. -/
def takeDigits : List Char → List Char
  | [] => []
  | c :: cs => if c.isDigit then takeDigits cs else c :: cs

/-- Integer part of a JSON number: a lone `0`, or a nonzero digit
followed by digits. -/
def parseIntPart : List Char → Option (List Char)
  | [] => none
  | c :: cs =>
    if c = '0' then some cs
    else if c.isDigit then some (takeDigits cs)
    else none

/-- Optional fraction part of a JSON number. -/
def parseFracPart : List Char → Option (List Char)
  | '.' :: rest =>
    match rest with
    | c :: _ => if c.isDigit then some (takeDigits rest) else none
    | [] => none
  | l => some l

/-- Optional exponent part of a JSON number. -/
def parseExpPart : List Char → Option (List Char)
  | [] => some []
  | c :: rest =>
    if c = 'e' ∨ c = 'E' then
      let rest2 := match rest with
        | s :: r2 => if s = '+' ∨ s = '-' then r2 else s :: r2
        | [] => []
      match rest2 with
      | d :: _ => if d.isDigit then some (takeDigits rest2) else none
      | [] => none
    else some (c :: rest)

/-- Parse a JSON number token, returning the remaining input. -/
def parseNumberTok (l : List Char) : Option (List Char) :=
  let l1 := match l with
    | '-' :: r => r
    | _ => l
  match parseIntPart l1 with
  | none => none
  | some l2 =>
    match parseFracPart l2 with
    | none => none
    | some l3 => parseExpPart l3

mutual

/-- Parse one JSON value (leading whitespace allowed), returning the
remaining input. -/
def parseValue : Nat → List Char → Option (Json × List Char)
  | 0, _ => none
  | fuel + 1, l =>
    match skipWs l with
    | [] => none
    | 'n' :: 'u' :: 'l' :: 'l' :: rest => some (Json.null, rest)
    | 't' :: 'r' :: 'u' :: 'e' :: rest => some (Json.bool true, rest)
    | 'f' :: 'a' :: 'l' :: 's' :: 'e' :: rest => some (Json.bool false, rest)
    | '"' :: rest =>
      match parseStrBody (rest.length + 1) rest with
      | some (cs, r) => some (Json.str (String.mk cs), r)
      | none => none
    | '[' :: rest =>
      match skipWs rest with
      | ']' :: r => some (Json.arr [], r)
      | l2 =>
        match parseArrayItems fuel l2 with
        | some (xs, r) => some (Json.arr xs, r)
        | none => none
    | '\x7b' :: rest =>
      match skipWs rest with
      | '\x7d' :: r => some (Json.obj [], r)
      | l2 =>
        match parseObjItems fuel l2 with
        | some (kvs, r) => some (Json.obj kvs, r)
        | none => none
    | l2 =>
      match parseNumberTok l2 with
      | some r => some (Json.num, r)
      | none => none

/-- Parse the comma-separated items of a non-empty JSON array up to the
closing bracket. -/
def parseArrayItems : Nat → List Char → Option (List Json × List Char)
  | 0, _ => none
  | fuel + 1, l =>
    match parseValue fuel l with
    | none => none
    | some (v, r) =>
      match skipWs r with
      | ',' :: r2 =>
        match parseArrayItems fuel r2 with
        | some (vs, r3) => some (v :: vs, r3)
        | none => none
      | ']' :: r2 => some ([v], r2)
      | _ => none

/-- Parse the comma-separated members of a non-empty JSON object up to
the closing brace. -/
def parseObjItems : Nat → List Char → Option (List (String × Json) × List Char)
  | 0, _ => none
  | fuel + 1, l =>
    match skipWs l with
    | '"' :: rest =>
      match parseStrBody (rest.length + 1) rest with
      | none => none
      | some (kcs, r) =>
        match skipWs r with
        | ':' :: r2 =>
          match parseValue fuel r2 with
          | none => none
          | some (v, r3) =>
            match skipWs r3 with
            | ',' :: r4 =>
              match parseObjItems fuel r4 with
              | some (kvs, r5) => some ((String.mk kcs, v) :: kvs, r5)
              | none => none
            | '\x7d' :: r4 => some ([(String.mk kcs, v)], r4)
            | _ => none
        | _ => none
    | _ => none

end

/-- Deserialization of one `GpuStatus` from the members of a JSON object,
with serde-derive semantics: both fields required, duplicate fields
rejected, unknown fields ignored. -/
def collectGpuFields : List (String × Json) → Option String → Option Bool → Option GpuStatus
  | [], some nm, some av => some { device_name := nm, is_available := av }
  | [], _, _ => none
  | (k, v) :: rest, nm?, av? =>
    if k = "device_name" then
      match nm?, v with
      | none, Json.str s => collectGpuFields rest (some s) av?
      | _, _ => none
    else if k = "is_available" then
      match av?, v with
      | none, Json.bool b => collectGpuFields rest nm? (some b)
      | _, _ => none
    else collectGpuFields rest nm? av?

/-- Deserialization of a `GpuStatus` from a JSON value. -/
def gpuStatusFromJson : Json → Option GpuStatus
  | Json.obj kvs => collectGpuFields kvs none none
  | _ => none

/-- Deserialization of a `Vec<GpuStatus>` from a JSON value. -/
def gpuStatusListFromJson : Json → Option (List GpuStatus)
  | Json.arr xs => xs.mapM gpuStatusFromJson
  | _ => none

/-- Model of `serde_json::from_str::<Vec<GpuStatus>>`: a full JSON parse
(trailing whitespace allowed, trailing characters rejected) followed by
the derived deserialization. -/
def parseGpuStatusList (s : String) : Option (List GpuStatus) :=
  match parseValue (s.toList.length + 1) s.toList with
  | none => none
  | some (v, rest) =>
    if skipWs rest = [] then gpuStatusListFromJson v else none

/-- The state of the file system at
`<config_path>/gpuminer/gpu_status.json`, as the reader can observe it:
missing, existing but unreadable (`fs::read_to_string` fails between the
existence check and the read), or readable with the given contents. -/
inductive FileState where
  | missing : FileState
  | unreadable : FileState
  | content : String → FileState

/-- Embedding of the `read_gpu_devices` body shared verbatim by all three
backends (hardware_monitor.rs lines 255-279, 405-429, 545-569): a missing
file and a parse failure are logged and yield the initial `vec![]`, while
a failing `fs::read_to_string(&file).unwrap()` panics (`none`). -/
def read_gpu_devices_impl (file : FileState) : Option (List GpuStatus) :=
  match file with
  | FileState.missing => some []
  | FileState.unreadable => none
  | FileState.content s =>
    match parseGpuStatusList s with
    | some gpu => some gpu
    | none => some []

/-- Windows backend `read_gpu_devices` (identical in all backends). -/
def WindowsHardwareMonitor.read_gpu_devices : FileState → Option (List GpuStatus) :=
  read_gpu_devices_impl

/-- Linux backend `read_gpu_devices` (identical in all backends). -/
def LinuxHardwareMonitor.read_gpu_devices : FileState → Option (List GpuStatus) :=
  read_gpu_devices_impl

/-- macOS backend `read_gpu_devices` (identical in all backends). -/
def MacOSHardwareMonitor.read_gpu_devices : FileState → Option (List GpuStatus) :=
  read_gpu_devices_impl

/-- The retained state of the `HardwareMonitor` facade: last CPU reading,
last GPU readings list, last GPU devices list. -/
structure HardwareMonitorState where
  cpu : Option HardwareParameters
  gpu : List HardwareParameters
  gpu_devices : List GpuStatus
deriving DecidableEq, Repr

/-- Embedding of `HardwareMonitor::read_hardware_parameters`
(hardware_monitor.rs lines 127-143), generic in the backend readers: read
CPU then GPU parameters using the retained readings as the previous
context, replace the retained state, return the snapshot.  A panic in
either reader (`none`) aborts the poll with the state unchanged. -/
def HardwareMonitor.read_hardware_parameters
    (read_cpu : Option HardwareParameters → Option HardwareParameters)
    (read_gpu : List HardwareParameters → Option (List HardwareParameters))
    (st : HardwareMonitorState) : Option (HardwareMonitorState × HardwareStatus) :=
  match read_cpu st.cpu with
  | none => none
  | some c =>
    match read_gpu st.gpu with
    | none => none
    | some g =>
      some ({ st with cpu := some c, gpu := g }, { cpu := some c, gpu := g })

/-- Embedding of `HardwareMonitor::read_gpu_devices` (hardware_monitor.rs
lines 145-149), generic in the backend file reader: delegate, replace the
retained GPU-devices list with the result, return it. -/
def HardwareMonitor.read_gpu_devices
    (read_devices : FileState → Option (List GpuStatus))
    (st : HardwareMonitorState) (file : FileState) :
    Option (HardwareMonitorState × List GpuStatus) :=
  match read_devices file with
  | none => none
  | some gpu_dev => some ({ st with gpu_devices := gpu_dev }, gpu_dev)

/-- The full per-poll environment of the Windows backend. -/
structure WindowsEnv where
  sensors : SensorEnv
  nvml : Option NvmlEnv

/-- One poll of the facade running the Windows backend. -/
def windowsPoll (env : WindowsEnv) (st : HardwareMonitorState) :
    Option (HardwareMonitorState × HardwareStatus) :=
  HardwareMonitor.read_hardware_parameters
    (WindowsHardwareMonitor.read_cpu_parameters env.sensors)
    (WindowsHardwareMonitor.read_gpu_parameters env.nvml) st

/-- Spec-side fold of §4.2 step 6: `max(previous.max_temperature, t)` when
a previous reading exists, else `t`. -/
def maxFold (previous : Option HardwareParameters) (t : F) : F :=
  match previous with
  | some p => F.max p.max_temperature t
  | none => t

/-- Spec-side positional fold of §4.3: fold `t` with the
positionally-corresponding previous entry, treating a missing previous
entry as "no prior max". -/
def maxFoldAt (previous : List HardwareParameters) (i : Nat) (t : F) : F :=
  match previous[i]? with
  | some p => F.max p.max_temperature t
  | none => t

/-- Absence of per-device metric-query failures for device `i`: either
there is no NVML, or the handle lookup fails (the loop skips), or all
three metric queries succeed.  Under this condition the NVML GPU reader
cannot panic. -/
def nvmlDeviceOk (nvml : Option NvmlEnv) (i : Nat) : Prop :=
  match nvml with
  | none => True
  | some env =>
    match env.device_by_index i with
    | none => True
    | some d =>
      d.temperature.isSome = true ∧ d.utilization.isSome = true ∧ d.name.isSome = true

/-- A Rust-max against a finite value is at least that value. -/
theorem F.ge_max_right (x t : F) (h : t.isFinite = true) :
    F.ge (F.max x t) t = true := by
  cases x <;> cases t <;> simp_all [F.max, F.ge, F.isFinite]

/-- A Rust-max over a finite value is at least that value. -/
theorem F.ge_max_left (x t : F) (h : x.isFinite = true) :
    F.ge (F.max x t) x = true := by
  cases x <;> cases t <;> simp_all [F.max, F.ge, F.isFinite]

/-- C1: on every backend, the returned `max_temperature` of a unit is the
fold `max(previous.max_temperature, current_temperature)` of the freshly
sampled temperature with the positionally-corresponding previous reading
when one exists, and the fresh temperature itself when none exists.  The
CPU conjuncts cover Windows, Linux and macOS (the fresh temperature being
the platform's filtered average); the fourth conjunct covers each device
entry produced by the NVML-backed GPU reader shared verbatim by the
Windows and Linux backends; the fifth covers each device entry produced
by the macOS GPU reader, whose fresh temperature is the averaged
GPU-component temperature. -/
theorem max_temperature_folds_with_previous :
    (∀ (env : SensorEnv) (prev : Option HardwareParameters),
      (WindowsHardwareMonitor.read_cpu_parameters env prev).map
          (fun p => (p.current_temperature, p.max_temperature))
        = env.cpuBrands.head?.map (fun _ => (windowsCpuAvg env, maxFold prev (windowsCpuAvg env))))
    ∧ (∀ (env : SensorEnv) (prev : Option HardwareParameters),
      (LinuxHardwareMonitor.read_cpu_parameters env prev).map
          (fun p => (p.current_temperature, p.max_temperature))
        = env.cpuBrands.head?.map (fun _ => (linuxCpuAvg env, maxFold prev (linuxCpuAvg env))))
    ∧ (∀ (env : SensorEnv) (prev : Option HardwareParameters),
      (MacOSHardwareMonitor.read_cpu_parameters env prev).map
          (fun p => (p.current_temperature, p.max_temperature))
        = env.cpuBrands.head?.map (fun _ => (macCpuAvg env, maxFold prev (macCpuAvg env))))
    ∧ (∀ (env : NvmlEnv) (prev : List HardwareParameters) (i : Nat) (p : HardwareParameters),
      nvmlDeviceEntry env prev i = some (some p) →
      p.max_temperature = maxFoldAt prev i p.current_temperature)
    ∧ (∀ (env : SensorEnv) (prev : List HardwareParameters) (i : Nat) (p : HardwareParameters),
      macGpuEntry env prev i = some p →
      p.max_temperature = maxFoldAt prev i (macGpuAvg env)
        ∧ (prev[i]? = none → p.current_temperature = macGpuAvg env)) := by
  refine ⟨?_, ?_, ?_, ?_, ?_⟩
  · intro env prev
    unfold WindowsHardwareMonitor.read_cpu_parameters maxFold
    cases env.cpuBrands.head? <;> cases prev <;> simp
  · intro env prev
    unfold LinuxHardwareMonitor.read_cpu_parameters maxFold
    cases env.cpuBrands.head? <;> cases prev <;> simp
  · intro env prev
    unfold MacOSHardwareMonitor.read_cpu_parameters maxFold
    cases env.cpuBrands.head? <;> cases prev <;> simp
  · intro env prev i p h
    unfold nvmlDeviceEntry at h
    split at h
    · simp at h
    · split at h
      · simp at h
        subst h
        cases hp : prev[i]? <;> simp [maxFoldAt, hp]
      · simp at h
  · intro env prev i p h
    unfold macGpuEntry at h
    split at h
    · simp at h
    · split at h
      · simp at h
        subst h
        simp_all [maxFoldAt]
      · simp at h
        subst h
        simp_all [maxFoldAt, List.getElem?_eq_none]

/-- The §4.2 fold of a finite fresh temperature is at least that
temperature. -/
theorem ge_maxFold (prev : Option HardwareParameters) (t : F) (h : t.isFinite = true) :
    F.ge (maxFold prev t) t = true := by
  unfold maxFold
  cases prev with
  | none => cases t <;> simp_all [F.ge, F.isFinite]
  | some p => exact F.ge_max_right _ _ h

/-- The §4.3 positional fold of a finite fresh temperature is at least
that temperature. -/
theorem ge_maxFoldAt (prev : List HardwareParameters) (i : Nat) (t : F)
    (h : t.isFinite = true) : F.ge (maxFoldAt prev i t) t = true := by
  unfold maxFoldAt
  cases prev[i]? with
  | none => cases t <;> simp_all [F.ge, F.isFinite]
  | some p => exact F.ge_max_right _ _ h

/-- Field characterization of a successful Windows CPU read. -/
theorem windows_cpu_some (env : SensorEnv) (prev : Option HardwareParameters)
    (p : HardwareParameters)
    (h : WindowsHardwareMonitor.read_cpu_parameters env prev = some p) :
    p.current_temperature = windowsCpuAvg env
      ∧ p.max_temperature = maxFold prev (windowsCpuAvg env) := by
  unfold WindowsHardwareMonitor.read_cpu_parameters at h
  split at h
  · simp at h
  · cases prev <;> simp at h <;> subst h <;> simp [maxFold]

/-- Field characterization of a successfully queried NVML device entry:
its current temperature is a finite cast of the `u32` sensor value and
its maximum is the positional fold with the previous list. -/
theorem nvml_entry_fields (env : NvmlEnv) (prev : List HardwareParameters)
    (i : Nat) (p : HardwareParameters)
    (h : nvmlDeviceEntry env prev i = some (some p)) :
    p.current_temperature.isFinite = true
      ∧ p.max_temperature = maxFoldAt prev i p.current_temperature := by
  unfold nvmlDeviceEntry at h
  split at h
  · simp at h
  · split at h
    · simp at h
      subst h
      refine ⟨rfl, ?_⟩
      cases hp : prev[i]? <;> simp [maxFoldAt, hp]
    · simp at h

/-- A fold of the NVML device loop from a panicked accumulator stays
panicked. -/
theorem nvmlFold_none (env : NvmlEnv) (prev : List HardwareParameters) :
    ∀ (is : List Nat), is.foldl (nvmlGpuStepFold env prev) none = none := by
  intro is
  induction is with
  | nil => rfl
  | cons i is ih => simpa [nvmlGpuStepFold] using ih

/-- Every member of a successful NVML device-loop fold comes either from
the initial accumulator or from a successfully queried device entry. -/
theorem nvmlFold_mem (env : NvmlEnv) (prev : List HardwareParameters) :
    ∀ (is : List Nat) (l0 l : List HardwareParameters),
      is.foldl (nvmlGpuStepFold env prev) (some l0) = some l →
      ∀ p ∈ l, p ∈ l0 ∨ ∃ i, nvmlDeviceEntry env prev i = some (some p) := by
  intro is
  induction is with
  | nil =>
    intro l0 l h p hp
    simp at h
    subst h
    exact Or.inl hp
  | cons i is ih =>
    intro l0 l h p hp
    rw [List.foldl_cons] at h
    cases he : nvmlDeviceEntry env prev i with
    | none =>
      rw [show nvmlGpuStepFold env prev (some l0) i = none by
        simp [nvmlGpuStepFold, he]] at h
      rw [nvmlFold_none] at h
      exact absurd h (by simp)
    | some o =>
      cases o with
      | none =>
        rw [show nvmlGpuStepFold env prev (some l0) i = some l0 by
          simp [nvmlGpuStepFold, he]] at h
        exact ih l0 l h p hp
      | some q =>
        rw [show nvmlGpuStepFold env prev (some l0) i = some (l0 ++ [q]) by
          simp [nvmlGpuStepFold, he]] at h
        rcases ih _ _ h p hp with hmem | hex
        · rcases List.mem_append.1 hmem with h1 | h2
          · exact Or.inl h1
          · simp at h2
            subst h2
            exact Or.inr ⟨i, he⟩
        · exact Or.inr hex

/-- Every member of a successful NVML GPU read satisfies the running-max
invariant `max_temperature >= current_temperature`. -/
theorem nvml_gpu_member_ge (nvml : Option NvmlEnv) (prev : List HardwareParameters)
    (l : List HardwareParameters) (h : NvmlGpu.read_gpu_parameters nvml prev = some l)
    (p : HardwareParameters) (hp : p ∈ l) :
    F.ge p.max_temperature p.current_temperature = true := by
  unfold NvmlGpu.read_gpu_parameters at h
  cases nvml with
  | none =>
    simp at h
    subst h
    simp at hp
  | some env =>
    simp only at h
    rcases nvmlFold_mem env prev _ _ _ h p hp with hmem | ⟨i, he⟩
    · simp at hmem
    · obtain ⟨hfin, hmax⟩ := nvml_entry_fields env prev i p he
      rw [hmax]
      exact ge_maxFoldAt _ _ _ hfin

/-- C2 (counterexample): the claimed invariant and monotonicity fail on
the code as stated.  First conjunct: a first poll whose CPU-relevant
component set is empty yields `current_temperature = max_temperature =
NaN`, and the IEEE comparison `max_temperature >= current_temperature` is
false in the very snapshot of the unit's first update.  Second conjunct:
with two GPUs, a second poll in which device 0's handle lookup fails
shifts list positions, and the entry at index 0 of poll `n+1` has
`max_temperature = 10 < 90 = max(max_temperature(n), current(n+1))`, so
`max_temperature(n+1) >= max(max_temperature(n), current_temperature(n+1))`
is false for the unit at index 0. -/
theorem max_temp_invariant_counterexample :
    ((windowsPoll ⟨⟨[], F.fin 0, ["X"]⟩, none⟩ ⟨none, [], []⟩).map
        (fun r => r.2.cpu.map (fun p => F.ge p.max_temperature p.current_temperature)))
      = some (some false)
    ∧ ((windowsPoll ⟨⟨[], F.fin 0, ["X"]⟩,
          some ⟨some 2, fun i => if i = 0 then some ⟨some 90, some 0, some "A"⟩
                                 else some ⟨some 10, some 0, some "B"⟩⟩⟩ ⟨none, [], []⟩).bind
        (fun r1 =>
          (windowsPoll ⟨⟨[], F.fin 0, ["X"]⟩,
              some ⟨some 2, fun i => if i = 0 then none
                                     else some ⟨some 10, some 0, some "B"⟩⟩⟩ r1.1).bind
            (fun r2 =>
              (r1.2.gpu[0]?).bind (fun p1 =>
                (r2.2.gpu[0]?).map (fun p2 =>
                  F.ge p2.max_temperature
                    (F.max p1.max_temperature p2.current_temperature))))))
      = some false :=
  ⟨by decide, by decide⟩

/-- C2 (amended): the invariant and the monotonicity hold away from the
two failure modes exhibited by the counterexample (NaN temperatures, and
positional shift through skipped devices).  (1) In every snapshot of a
Windows-backend poll the CPU reading satisfies `max_temperature >=
current_temperature` whenever its current temperature is finite; (2)
every GPU entry of such a snapshot satisfies it unconditionally; (3) for
two successive polls the CPU reading's `max_temperature` is at least the
previous `max_temperature` and the new `current_temperature` whenever
those are finite; (4) for a GPU entry produced for device index `i`, the
same holds against the positionally-corresponding entry of the previous
reading list whenever the previous maximum is finite. -/
theorem max_temp_invariant_monotone_amended :
    (∀ (env : WindowsEnv) (st : HardwareMonitorState)
        (r : HardwareMonitorState × HardwareStatus) (p : HardwareParameters),
      windowsPoll env st = some r → r.2.cpu = some p →
      p.current_temperature.isFinite = true →
      F.ge p.max_temperature p.current_temperature = true)
    ∧ (∀ (env : WindowsEnv) (st : HardwareMonitorState)
        (r : HardwareMonitorState × HardwareStatus) (p : HardwareParameters),
      windowsPoll env st = some r → p ∈ r.2.gpu →
      F.ge p.max_temperature p.current_temperature = true)
    ∧ (∀ (env1 env2 : WindowsEnv) (st : HardwareMonitorState)
        (r1 r2 : HardwareMonitorState × HardwareStatus) (p1 p2 : HardwareParameters),
      windowsPoll env1 st = some r1 → windowsPoll env2 r1.1 = some r2 →
      r1.2.cpu = some p1 → r2.2.cpu = some p2 →
      p1.max_temperature.isFinite = true → p2.current_temperature.isFinite = true →
      F.ge p2.max_temperature p1.max_temperature = true
        ∧ F.ge p2.max_temperature p2.current_temperature = true)
    ∧ (∀ (env : NvmlEnv) (prev : List HardwareParameters) (i : Nat)
        (p cp : HardwareParameters),
      nvmlDeviceEntry env prev i = some (some p) → prev[i]? = some cp →
      cp.max_temperature.isFinite = true →
      F.ge p.max_temperature cp.max_temperature = true
        ∧ F.ge p.max_temperature p.current_temperature = true) := by
  refine ⟨?_, ?_, ?_, ?_⟩
  · intro env st r p hpoll hcpu hfin
    unfold windowsPoll HardwareMonitor.read_hardware_parameters at hpoll
    cases hc : WindowsHardwareMonitor.read_cpu_parameters env.sensors st.cpu with
    | none => rw [hc] at hpoll; simp at hpoll
    | some c =>
      rw [hc] at hpoll
      cases hg : WindowsHardwareMonitor.read_gpu_parameters env.nvml st.gpu with
      | none => rw [hg] at hpoll; simp at hpoll
      | some g =>
        rw [hg] at hpoll
        simp at hpoll
        subst hpoll
        simp at hcpu
        subst hcpu
        obtain ⟨hcur, hmax⟩ := windows_cpu_some _ _ _ hc
        rw [hmax, hcur]
        rw [hcur] at hfin
        exact ge_maxFold _ _ hfin
  · intro env st r p hpoll hmem
    unfold windowsPoll HardwareMonitor.read_hardware_parameters at hpoll
    cases hc : WindowsHardwareMonitor.read_cpu_parameters env.sensors st.cpu with
    | none => rw [hc] at hpoll; simp at hpoll
    | some c =>
      rw [hc] at hpoll
      cases hg : WindowsHardwareMonitor.read_gpu_parameters env.nvml st.gpu with
      | none => rw [hg] at hpoll; simp at hpoll
      | some g =>
        rw [hg] at hpoll
        simp at hpoll
        subst hpoll
        simp at hmem
        exact nvml_gpu_member_ge env.nvml st.gpu g hg p hmem
  · intro env1 env2 st r1 r2 p1 p2 h1 h2 hc1 hc2 hfin1 hfin2
    unfold windowsPoll HardwareMonitor.read_hardware_parameters at h1
    cases hca : WindowsHardwareMonitor.read_cpu_parameters env1.sensors st.cpu with
    | none => rw [hca] at h1; simp at h1
    | some c1 =>
      rw [hca] at h1
      cases hga : WindowsHardwareMonitor.read_gpu_parameters env1.nvml st.gpu with
      | none => rw [hga] at h1; simp at h1
      | some g1 =>
        rw [hga] at h1
        simp at h1
        subst h1
        simp at hc1
        subst hc1
        unfold windowsPoll HardwareMonitor.read_hardware_parameters at h2
        cases hcb : WindowsHardwareMonitor.read_cpu_parameters env2.sensors
            (some c1) with
        | none =>
          simp only at h2
          rw [hcb] at h2
          simp at h2
        | some c2 =>
          simp only at h2
          rw [hcb] at h2
          cases hgb : WindowsHardwareMonitor.read_gpu_parameters env2.nvml g1 with
          | none => rw [hgb] at h2; simp at h2
          | some g2 =>
            rw [hgb] at h2
            simp at h2
            subst h2
            simp at hc2
            subst hc2
            obtain ⟨hcur2, hmax2⟩ := windows_cpu_some _ _ _ hcb
            rw [hcur2] at hfin2
            rw [hmax2, hcur2]
            unfold maxFold
            exact ⟨F.ge_max_left _ _ hfin1, F.ge_max_right _ _ hfin2⟩
  · intro env prev i p cp he hp hfin
    obtain ⟨hfinc, hmax⟩ := nvml_entry_fields env prev i p he
    rw [hmax]
    unfold maxFoldAt
    rw [hp]
    exact ⟨F.ge_max_left _ _ hfin, F.ge_max_right _ _ hfinc⟩

/-- C2 (witness): the amended per-device monotonicity instantiated on a
concrete NVML device reading 50 degrees against a previous entry whose
maximum was 45 degrees. -/
theorem max_temp_invariant_monotone_amended_witness :
    F.ge (F.max (F.fin 45) (F.fin 50)) (F.fin 45) = true
      ∧ F.ge (F.max (F.fin 45) (F.fin 50)) (F.fin 50) = true := by
  have h := max_temp_invariant_monotone_amended.2.2.2
    ⟨some 1, fun _ => some ⟨some 50, some 5, some "G"⟩⟩
    [⟨"P", F.fin 0, F.fin 40, F.fin 45⟩] 0
    ⟨"G", F.fin 5, F.fin 50, F.max (F.fin 45) (F.fin 50)⟩
    ⟨"P", F.fin 0, F.fin 40, F.fin 45⟩
    (by decide) (by decide) (by decide)
  exact h

/-- C1 (witness): the fold instantiated on a concrete NVML device reading
70 degrees with no previous entry. -/
theorem max_temperature_folds_with_previous_witness :
    HardwareParameters.max_temperature ⟨"G", F.fin 5, F.fin 70, F.fin 70⟩
      = maxFoldAt [] 0 (F.fin 70) := by
  have h := max_temperature_folds_with_previous.2.2.2.1
    ⟨some 1, fun _ => some ⟨some 70, some 5, some "G"⟩⟩ [] 0
    ⟨"G", F.fin 5, F.fin 70, F.fin 70⟩ (by decide)
  exact h

/-- A device satisfying `nvmlDeviceOk` never makes its loop iteration
panic. -/
theorem nvmlDeviceOk_entry (env : NvmlEnv) (prev : List HardwareParameters)
    (i : Nat) (h : nvmlDeviceOk (some env) i) :
    nvmlDeviceEntry env prev i ≠ none := by
  unfold nvmlDeviceOk at h
  unfold nvmlDeviceEntry
  cases hd : env.device_by_index i with
  | none => simp
  | some d =>
    simp only [hd] at h
    obtain ⟨h1, h2, h3⟩ := h
    cases ht : d.temperature with
    | none => rw [ht] at h1; simp at h1
    | some t =>
      cases hu : d.utilization with
      | none => rw [hu] at h2; simp at h2
      | some u =>
        cases hn : d.name with
        | none => rw [hn] at h3; simp at h3
        | some nm => simp [ht, hu, hn]

/-- Characterization of the NVML device loop when no metric query
panics: the fold appends, in index order, exactly the entries of the
devices whose handle lookup succeeded; skipped indices contribute
nothing. -/
theorem nvmlFold_ok (env : NvmlEnv) (prev : List HardwareParameters) :
    ∀ (is : List Nat) (l0 : List HardwareParameters),
      (∀ i ∈ is, nvmlDeviceEntry env prev i ≠ none) →
      is.foldl (nvmlGpuStepFold env prev) (some l0)
        = some (l0 ++ is.filterMap (fun i => (nvmlDeviceEntry env prev i).bind id)) := by
  intro is
  induction is with
  | nil => intro l0 h; simp
  | cons i is ih =>
    intro l0 h
    rw [List.foldl_cons]
    have hi : nvmlDeviceEntry env prev i ≠ none := h i (by simp)
    cases he : nvmlDeviceEntry env prev i with
    | none => exact absurd he hi
    | some o =>
      cases o with
      | none =>
        rw [show nvmlGpuStepFold env prev (some l0) i = some l0 by
          simp [nvmlGpuStepFold, he]]
        rw [ih l0 (fun j hj => h j (by simp [hj]))]
        simp [List.filterMap_cons, he]
      | some q =>
        rw [show nvmlGpuStepFold env prev (some l0) i = some (l0 ++ [q]) by
          simp [nvmlGpuStepFold, he]]
        rw [ih (l0 ++ [q]) (fun j hj => h j (by simp [hj]))]
        simp [List.filterMap_cons, he]

/-- The Windows CPU reader succeeds whenever at least one logical CPU is
enumerated. -/
theorem windows_cpu_isSome (env : SensorEnv) (prev : Option HardwareParameters)
    (h : env.cpuBrands ≠ []) :
    (WindowsHardwareMonitor.read_cpu_parameters env prev).isSome = true := by
  unfold WindowsHardwareMonitor.read_cpu_parameters
  cases hb : env.cpuBrands with
  | nil => exact absurd hb h
  | cons b bs => cases prev <;> simp [hb]

/-- The NVML GPU reader succeeds whenever no enumerated device suffers a
metric-query failure. -/
theorem nvml_gpu_isSome (nvml : Option NvmlEnv) (prev : List HardwareParameters)
    (h : ∀ i, nvmlDeviceOk nvml i) :
    (NvmlGpu.read_gpu_parameters nvml prev).isSome = true := by
  unfold NvmlGpu.read_gpu_parameters
  cases nvml with
  | none => simp
  | some env =>
    simp only
    rw [nvmlFold_ok env prev _ [] (fun i _ => nvmlDeviceOk_entry env prev i (h i))]
    simp

/-- C3 (counterexample): the poll is not total in the state of the
underlying sensors: when the logical-CPU enumeration comes back empty,
`system.cpus().first().unwrap()` panics and the poll fails outright
instead of degrading. -/
theorem poll_never_fails_counterexample :
    windowsPoll ⟨⟨[], F.fin 0, []⟩, none⟩ ⟨none, [], []⟩ = none := by
  decide

/-- C3 (amended): the poll cannot fail provided at least one logical CPU
is enumerated and no enumerated NVML device suffers a per-device
metric-query failure; within that regime absent sensors degrade rather
than abort (an absent or uninitialized NVML yields the empty GPU list,
and an empty temperature-component set yields a NaN average, not an
error). -/
theorem poll_never_fails_amended :
    (∀ (env : WindowsEnv) (st : HardwareMonitorState),
      env.sensors.cpuBrands ≠ [] →
      (∀ i, nvmlDeviceOk env.nvml i) →
      (windowsPoll env st).isSome = true)
    ∧ (∀ prev, NvmlGpu.read_gpu_parameters none prev = some []) := by
  constructor
  · intro env st hb hok
    unfold windowsPoll HardwareMonitor.read_hardware_parameters
    cases hc : WindowsHardwareMonitor.read_cpu_parameters env.sensors st.cpu with
    | none =>
      have hs := windows_cpu_isSome env.sensors st.cpu hb
      rw [hc] at hs
      simp at hs
    | some c =>
      cases hg : WindowsHardwareMonitor.read_gpu_parameters env.nvml st.gpu with
      | none =>
        have hs := nvml_gpu_isSome env.nvml st.gpu hok
        unfold WindowsHardwareMonitor.read_gpu_parameters at hg
        rw [hg] at hs
        simp at hs
      | some g => simp [hc, hg]
  · intro prev
    rfl

/-- C3 (witness): a concrete poll with one healthy NVML device and no CPU
temperature components succeeds. -/
theorem poll_never_fails_amended_witness :
    (windowsPoll ⟨⟨[], F.fin 0, ["X"]⟩,
        some ⟨some 1, fun _ => some ⟨some 80, some 10, some "G"⟩⟩⟩
      ⟨none, [], []⟩).isSome = true :=
  poll_never_fails_amended.1 _ _ (by simp) (fun i => by simp [nvmlDeviceOk])

/-- C4 (counterexample): a failing per-device metric query is not skipped.
With one device whose handle lookup succeeds but whose temperature query
fails, `read_gpu_parameters` panics (`.unwrap()`) instead of skipping the
device and returning the remaining entries. -/
theorem gpu_device_skip_counterexample :
    WindowsHardwareMonitor.read_gpu_parameters
        (some ⟨some 1, fun _ => some ⟨none, some 0, some "G"⟩⟩) [] = none := by
  decide

/-- C4 (amended): only a failing handle lookup (`device_by_index`) is
logged and skipped with no placeholder entry.  (1) A failed lookup makes
the iteration contribute nothing and the loop continue; (2) a failing
temperature, utilization or name query on a looked-up device panics,
aborting the poll; (3) when no metric query fails, the reader returns
exactly the entries of the successfully looked-up devices, in index
order, skipped indices contributing no placeholder. -/
theorem gpu_device_skip_amended :
    (∀ (env : NvmlEnv) (prev : List HardwareParameters) (i : Nat),
      env.device_by_index i = none → nvmlDeviceEntry env prev i = some none)
    ∧ (∀ (env : NvmlEnv) (prev : List HardwareParameters) (i : Nat) (d : NvmlDevice),
      env.device_by_index i = some d →
      (d.temperature = none ∨ d.utilization = none ∨ d.name = none) →
      nvmlDeviceEntry env prev i = none)
    ∧ (∀ (env : NvmlEnv) (prev : List HardwareParameters),
      (∀ i, nvmlDeviceOk (some env) i) →
      NvmlGpu.read_gpu_parameters (some env) prev
        = some ((List.range (env.device_count.getD 0)).filterMap
            (fun i => (nvmlDeviceEntry env prev i).bind id))) := by
  refine ⟨?_, ?_, ?_⟩
  · intro env prev i h
    simp [nvmlDeviceEntry, h]
  · intro env prev i d hd hbad
    rcases hbad with ht | hu | hn
    · simp [nvmlDeviceEntry, hd, ht]
    · cases ht : d.temperature <;> simp [nvmlDeviceEntry, hd, ht, hu]
    · cases ht : d.temperature <;> cases hu : d.utilization <;>
        simp [nvmlDeviceEntry, hd, ht, hu, hn]
  · intro env prev h
    unfold NvmlGpu.read_gpu_parameters
    simp only
    rw [nvmlFold_ok env prev _ [] (fun i _ => nvmlDeviceOk_entry env prev i (h i))]
    simp

/-- C4 (witness): with two devices of which device 0's handle lookup
fails, the reader returns exactly device 1's entry, with no placeholder
for device 0. -/
theorem gpu_device_skip_amended_witness :
    NvmlGpu.read_gpu_parameters
        (some ⟨some 2, fun i => if i = 0 then none
                                else some ⟨some 10, some 7, some "B"⟩⟩) []
      = some [⟨"B", F.fin 7, F.fin 10, F.fin 10⟩] := by
  have h := gpu_device_skip_amended.2.2
    ⟨some 2, fun i => if i = 0 then none else some ⟨some 10, some 7, some "B"⟩⟩ []
    (fun i => by
      by_cases h0 : i = 0 <;> simp [nvmlDeviceOk, h0])
  rw [h]
  decide

/-- C5: when the filtered set of CPU-relevant components is empty, the
average is a `0.0 / 0.0` division producing a non-finite (NaN) value, and
the reader still returns a reading (no explicit error): provided the
label read succeeds (at least one logical CPU), the result is `some` with
a non-finite `current_temperature`. -/
theorem cpu_empty_filter_nan :
    (∀ (env : SensorEnv), windowsCpuComponents env = [] → windowsCpuAvg env = F.nan)
    ∧ (∀ (env : SensorEnv) (prev : Option HardwareParameters),
      windowsCpuComponents env = [] → env.cpuBrands ≠ [] →
      (WindowsHardwareMonitor.read_cpu_parameters env prev).map
          (fun p => p.current_temperature.isFinite) = some false) := by
  have havg : ∀ (env : SensorEnv), windowsCpuComponents env = [] →
      windowsCpuAvg env = F.nan := by
    intro env hempty
    unfold windowsCpuAvg
    rw [hempty]
    simp [avgTemp, F.div]
  refine ⟨havg, ?_⟩
  intro env prev hempty hb
  unfold WindowsHardwareMonitor.read_cpu_parameters
  cases hbr : env.cpuBrands with
  | nil => exact absurd hbr hb
  | cons b bs =>
    cases prev <;> simp [hbr, havg env hempty, F.isFinite]

/-- C5 (witness): a concrete component list with no label containing
`"Cpu"` yields a returned reading whose current temperature is
non-finite. -/
theorem cpu_empty_filter_nan_witness :
    (WindowsHardwareMonitor.read_cpu_parameters
        ⟨[⟨"Sys Fan", F.fin 80⟩], F.fin 0, ["X"]⟩ none).map
        (fun p => p.current_temperature.isFinite) = some false :=
  cpu_empty_filter_nan.2 _ _ (by decide) (by decide)

/-- C6: when the target file exists but its contents fail to parse as a
JSON array of `GpuStatus` records, `read_gpu_devices` returns the empty
sequence and the facade replaces its retained GPU-devices list with that
empty sequence, losing the previously retained list. -/
theorem gpu_devices_parse_failure_clears :
    ∀ (st : HardwareMonitorState) (s : String),
      parseGpuStatusList s = none →
      HardwareMonitor.read_gpu_devices read_gpu_devices_impl st (FileState.content s)
        = some ({ st with gpu_devices := [] }, []) := by
  intro st s h
  unfold HardwareMonitor.read_gpu_devices read_gpu_devices_impl
  simp [h]

/-- C6 (witness): on the malformed contents `"not json"` the previously
retained non-empty device list is replaced by the empty sequence. -/
theorem gpu_devices_parse_failure_clears_witness :
    HardwareMonitor.read_gpu_devices read_gpu_devices_impl
        ⟨none, [], [⟨"OLD", true⟩]⟩ (FileState.content "not json")
      = some (⟨none, [], []⟩, []) :=
  gpu_devices_parse_failure_clears _ _ (by decide)

/-- C7: when the target file exists and parses as a JSON array of
`GpuStatus` records, `read_gpu_devices` returns the parsed sequence
verbatim in file order; in particular the concrete file
`[\x7b"device_name":"RTX-X","is_available":true\x7d]` parses to exactly one
record with device name `RTX-X` and availability `true`. -/
theorem gpu_devices_parse_success_verbatim :
    (∀ (st : HardwareMonitorState) (s : String) (l : List GpuStatus),
      parseGpuStatusList s = some l →
      HardwareMonitor.read_gpu_devices read_gpu_devices_impl st (FileState.content s)
        = some ({ st with gpu_devices := l }, l))
    ∧ parseGpuStatusList "[\x7b\"device_name\":\"RTX-X\",\"is_available\":true\x7d]"
        = some [⟨"RTX-X", true⟩] := by
  constructor
  · intro st s l h
    unfold HardwareMonitor.read_gpu_devices read_gpu_devices_impl
    simp [h]
  · decide

/-- C7 (witness): reading the concrete one-record file returns exactly
that record and retains it. -/
theorem gpu_devices_parse_success_verbatim_witness :
    HardwareMonitor.read_gpu_devices read_gpu_devices_impl ⟨none, [], []⟩
        (FileState.content "[\x7b\"device_name\":\"RTX-X\",\"is_available\":true\x7d]")
      = some (⟨none, [], [⟨"RTX-X", true⟩]⟩, [⟨"RTX-X", true⟩]) := by
  have h := gpu_devices_parse_success_verbatim.1 ⟨none, [], []⟩ _ _
    gpu_devices_parse_success_verbatim.2
  exact h

/-- C8: on the macOS backend, whenever a positionally-corresponding
previous GPU entry exists, the produced entry carries that previous
entry's `current_temperature` unchanged, and the freshly averaged
GPU-component temperature is folded only into `max_temperature`. -/
theorem mac_gpu_stale_current :
    ∀ (env : SensorEnv) (prev : List HardwareParameters) (i : Nat)
      (cp : HardwareParameters),
      prev[i]? = some cp →
      (macGpuEntry env prev i).map (fun p => p.current_temperature)
          = env.cpuBrands[i]?.map (fun _ => cp.current_temperature)
        ∧ (macGpuEntry env prev i).map (fun p => p.max_temperature)
          = env.cpuBrands[i]?.map (fun _ => F.max cp.max_temperature (macGpuAvg env)) := by
  intro env prev i cp h
  unfold macGpuEntry
  cases hb : env.cpuBrands[i]? <;> simp [hb, h]

/-- C8 (witness): with a previous entry at 62 degrees current and an
empty fresh component set, the macOS entry still reports 62 degrees. -/
theorem mac_gpu_stale_current_witness :
    (macGpuEntry ⟨[], F.fin 0, ["Apple"]⟩
        [⟨"Apple GPU", F.fin 0, F.fin 62, F.fin 70⟩] 0).map
        (fun p => p.current_temperature) = some (F.fin 62) := by
  have h := (mac_gpu_stale_current ⟨[], F.fin 0, ["Apple"]⟩
    [⟨"Apple GPU", F.fin 0, F.fin 62, F.fin 70⟩] 0
    ⟨"Apple GPU", F.fin 0, F.fin 62, F.fin 70⟩ (by decide)).1
  rw [h]
  decide

/-- C9: when the target file exists but reading its contents fails (the
file becomes unreadable between the `exists()` check and
`read_to_string`), `read_gpu_devices` panics on the `.unwrap()` instead
of returning an empty sequence. -/
theorem gpu_devices_unreadable_panics :
    WindowsHardwareMonitor.read_gpu_devices FileState.unreadable = none := rfl

/-- C10: the facade's `read_gpu_devices` replaces only the retained
`gpu_devices` field, with exactly the returned value; the retained last
CPU reading and last GPU readings list are unchanged. -/
theorem read_gpu_devices_frame :
    ∀ (st : HardwareMonitorState) (file : FileState)
      (r : HardwareMonitorState × List GpuStatus),
      HardwareMonitor.read_gpu_devices read_gpu_devices_impl st file = some r →
      r.1.cpu = st.cpu ∧ r.1.gpu = st.gpu ∧ r.1.gpu_devices = r.2 := by
  intro st file r h
  unfold HardwareMonitor.read_gpu_devices at h
  cases hd : read_gpu_devices_impl file with
  | none => rw [hd] at h; simp at h
  | some l =>
    rw [hd] at h
    simp at h
    subst h
    simp

/-- C10 (witness): a concrete missing-file read leaves the retained CPU
and GPU readings untouched while the devices list becomes the returned
empty sequence. -/
theorem read_gpu_devices_frame_witness :
    (some ⟨"X", F.fin 1, F.fin 2, F.fin 3⟩ : Option HardwareParameters)
        = some ⟨"X", F.fin 1, F.fin 2, F.fin 3⟩
      ∧ ([⟨"G", F.fin 1, F.fin 2, F.fin 3⟩] : List HardwareParameters)
        = [⟨"G", F.fin 1, F.fin 2, F.fin 3⟩]
      ∧ ([] : List GpuStatus) = [] :=
  read_gpu_devices_frame
    ⟨some ⟨"X", F.fin 1, F.fin 2, F.fin 3⟩, [⟨"G", F.fin 1, F.fin 2, F.fin 3⟩],
      [⟨"OLD", true⟩]⟩
    FileState.missing
    (⟨some ⟨"X", F.fin 1, F.fin 2, F.fin 3⟩, [⟨"G", F.fin 1, F.fin 2, F.fin 3⟩], []⟩, [])
    (by decide)
